import Mathlib

/-!
Verification of the FlexSPI flash command-sequencer and transfer engine of the
embassy-imxrt hardware abstraction layer (src/flexspi.rs and
src/flexspistorage.rs).  The Rust driver is shallowly embedded: the
configuration structures become Lean structures, the pure DLL-calibration
function becomes a pure Lean function, and the register-mutating engine
routines become explicit state transformers over register-state records.
Machine integers are modelled as Nat; the 32-bit bitwise complement of the
raw-pointer engine is modelled as xor with 0xFFFFFFFF.  Field-level writes
made through the peripheral-access-crate API are modelled as updates of the
corresponding named field of the register-state record.
-/

namespace EmbassyImxrtFlexspi

/-- FlexSPI Read Sample Clock Enum (flexspi.rs). -/
inductive FlexspiReadSampleClock where
  | FlexspiReadSampleClkLoopbackInternally
  | FlexspiReadSampleClkLoopbackFromDqsPad
  | FlexspiReadSampleClkLoopbackFromSckPad
  | FlexspiReadSampleClkExternalInputFromDqsPad
deriving DecidableEq, Repr

/-- FlexSPI Chip Select Interval unit Enum (flexspi.rs). -/
inductive FlexspiCsIntervalCycleUnit where
  | CsIntervalUnit1Cycle
  | CsIntervalUnit256Cycle
deriving DecidableEq, Repr

/-- FlexSPI AHB Write Wait unit Enum (flexspi.rs). -/
inductive FlexspiAhbWriteWaitUnit where
  | FlexspiAhbWriteWaitUnit2ahbCycle
  | FlexspiAhbWriteWaitUnit8ahbCycle
  | FlexspiAhbWriteWaitUnit32ahbCycle
  | FlexspiAhbWriteWaitUnit128ahbCycle
  | FlexspiAhbWriteWaitUnit512ahbCycle
  | FlexspiAhbWriteWaitUnit2048ahbCycle
  | FlexspiAhbWriteWaitUnit8192ahbCycle
  | FlexspiAhbWriteWaitUnit32768ahbCycle
deriving DecidableEq, Repr

/-- FlexSPI Port Enum (flexspi.rs). -/
inductive FlexSpiFlashPort where
  | PortA
  | PortB
deriving DecidableEq, Repr

/-- FlexSPI Flash Port Device Instance Enum (flexspi.rs). -/
inductive FlexSpiFlashPortDeviceInstance where
  | DeviceInstance0
  | DeviceInstance1
deriving DecidableEq, Repr

/-- The private command enum of both engine files. -/
inductive FlexSpiCmd where
  | WriteEnable
  | ReadStatusRegister
  | EraseSector
  | ReadId
  | PageProgram
deriving DecidableEq, Repr

/-- The fixed command-kind-to-index mapping given by the
impl From of FlexSpiCmd for usize (flexspi.rs lines 86-96, identical copy in
flexspistorage.rs lines 88-98). -/
def cmdIndex : FlexSpiCmd → Nat
  | FlexSpiCmd.ReadId => 1
  | FlexSpiCmd.WriteEnable => 3
  | FlexSpiCmd.ReadStatusRegister => 4
  | FlexSpiCmd.EraseSector => 6
  | FlexSpiCmd.PageProgram => 12

/-- AHB per-buffer configuration structure FlexspiAhbBufferConfig
(flexspi.rs). -/
structure FlexspiAhbBufferConfig where
  priority : Nat
  master_index : Nat
  buffer_size : Nat
  enable_prefetch : Bool
deriving DecidableEq, Repr

/-- AHB configuration structure AhbConfig (flexspi.rs); the 8-element Rust
array of buffer configurations is modelled as a function out of Fin 8. -/
structure AhbConfig where
  enable_ahb_write_ip_tx_fifo : Bool
  enable_ahb_write_ip_rx_fifo : Bool
  ahb_grant_timeout_cycle : Nat
  ahb_bus_timeout_cycle : Nat
  resume_wait_cycle : Nat
  buffer : Fin 8 → FlexspiAhbBufferConfig
  enable_clear_ahb_buffer_opt : Bool
  enable_read_address_opt : Bool
  enable_ahb_prefetch : Bool
  enable_ahb_bufferable : Bool
  enable_ahb_cachable : Bool

/-- Flash device configuration FlexspiDeviceConfig (flexspi.rs). -/
structure FlexspiDeviceConfig where
  flexspi_root_clk : Nat
  is_sck2_enabled : Bool
  flash_size_kb : Nat
  cs_interval_unit : FlexspiCsIntervalCycleUnit
  cs_interval : Nat
  cs_hold_time : Nat
  cs_setup_time : Nat
  data_valid_time : Nat
  columnspace : Nat
  enable_word_address : Bool
  awr_seq_index : Nat
  awr_seq_number : Nat
  ard_seq_index : Nat
  ard_seq_number : Nat
  ahb_write_wait_unit : FlexspiAhbWriteWaitUnit
  ahb_write_wait_interval : Nat
  enable_write_mask : Bool

/-- FlexSPI configuration structure FlexspiConfig (flexspi.rs). -/
structure FlexspiConfig where
  rx_sample_clock : FlexspiReadSampleClock
  enable_sck_free_running : Bool
  enable_combination : Bool
  enable_doze : Bool
  enable_half_speed_access : Bool
  enable_sck_b_diff_opt : Bool
  enable_same_config_for_all : Bool
  seq_timeout_cycle : Nat
  ip_grant_timeout_cycle : Nat
  tx_watermark : Nat
  rx_watermark : Nat
  ahb_config : AhbConfig

/-- Shallow embedding of calc_dll_value (flexspi.rs lines 1684-1720; an
identical copy lives in flexspistorage.rs lines 1249-1285).  The function is
a pure transform from the two configuration structures to the 32-bit DLL
control register value; no intermediate value can exceed 32 bits for u8
data_valid_time, so no wrap-around is applied. -/
def calc_dll_value (device_config : FlexspiDeviceConfig)
    (flexspi_config : FlexspiConfig) : Nat :=
  let is_unified_config :=
    match flexspi_config.rx_sample_clock with
    | FlexspiReadSampleClock.FlexspiReadSampleClkLoopbackInternally => true
    | FlexspiReadSampleClock.FlexspiReadSampleClkLoopbackFromDqsPad => true
    | FlexspiReadSampleClock.FlexspiReadSampleClkLoopbackFromSckPad => true
    | FlexspiReadSampleClock.FlexspiReadSampleClkExternalInputFromDqsPad =>
        device_config.is_sck2_enabled
  if is_unified_config then
    0x100
  else if device_config.flexspi_root_clk ≥ 100000000 then
    0x1 ||| (0xF <<< 3)
  else
    let temp := device_config.data_valid_time * 1000
    let dll_value := temp / 75
    let dll_value := if dll_value * 75 < temp then dll_value + 1 else dll_value
    (0x1 <<< 8) ||| ((dll_value &&& 0x78) <<< 9)

/-- A fully populated sample buffer configuration used for concrete
evaluations. -/
def sampleAhbBufferConfig : FlexspiAhbBufferConfig :=
  { priority := 0, master_index := 0, buffer_size := 256,
    enable_prefetch := true }

/-- A fully populated sample AhbConfig used for concrete evaluations. -/
def sampleAhbConfig : AhbConfig :=
  { enable_ahb_write_ip_tx_fifo := false
    enable_ahb_write_ip_rx_fifo := false
    ahb_grant_timeout_cycle := 0xFF
    ahb_bus_timeout_cycle := 0xFFFF
    resume_wait_cycle := 0x20
    buffer := fun _ => sampleAhbBufferConfig
    enable_clear_ahb_buffer_opt := false
    enable_read_address_opt := false
    enable_ahb_prefetch := false
    enable_ahb_bufferable := false
    enable_ahb_cachable := false }

/-- A sample FlexspiConfig whose sampling mode is the external strobe from
the DQS pad. -/
def externalStrobeConfig : FlexspiConfig :=
  { rx_sample_clock :=
      FlexspiReadSampleClock.FlexspiReadSampleClkExternalInputFromDqsPad
    enable_sck_free_running := false
    enable_combination := false
    enable_doze := false
    enable_half_speed_access := false
    enable_sck_b_diff_opt := false
    enable_same_config_for_all := false
    seq_timeout_cycle := 0xFFFF
    ip_grant_timeout_cycle := 0xFF
    tx_watermark := 8
    rx_watermark := 8
    ahb_config := sampleAhbConfig }

/-- A fully populated sample device configuration. -/
def sampleDeviceConfig : FlexspiDeviceConfig :=
  { flexspi_root_clk := 48000000
    is_sck2_enabled := true
    flash_size_kb := 0x10000
    cs_interval_unit := FlexspiCsIntervalCycleUnit.CsIntervalUnit1Cycle
    cs_interval := 2
    cs_hold_time := 3
    cs_setup_time := 3
    data_valid_time := 2
    columnspace := 0
    enable_word_address := false
    awr_seq_index := 0
    awr_seq_number := 0
    ard_seq_index := 0
    ard_seq_number := 0
    ahb_write_wait_unit :=
      FlexspiAhbWriteWaitUnit.FlexspiAhbWriteWaitUnit2ahbCycle
    ahb_write_wait_interval := 0
    enable_write_mask := false }

/-- The number of LUT instruction words per sequence slot
(const LUT_NUM_REG_PER_SEQ in both engine files). -/
def LUT_NUM_REG_PER_SEQ : Nat := 4

/-- LUT opcode STOP.  The opcode and pad encodings are modelled from the
external mimxrt600_fcb crate that both engine files import; the claims below
never depend on the numeric values, only on which LUT words get written. -/
def STOP : Nat := 0x00

/-- LUT opcode CMD_SDR (mimxrt600_fcb). -/
def CMD_SDR : Nat := 0x01

/-- LUT opcode CMD_DDR (mimxrt600_fcb). -/
def CMD_DDR : Nat := 0x21

/-- LUT opcode RADDR_DDR (mimxrt600_fcb). -/
def RADDR_DDR : Nat := 0x22

/-- LUT opcode DUMMY_DDR (mimxrt600_fcb). -/
def DUMMY_DDR : Nat := 0x2C

/-- LUT opcode READ_SDR (mimxrt600_fcb). -/
def READ_SDR : Nat := 0x09

/-- LUT opcode READ_DDR (mimxrt600_fcb). -/
def READ_DDR : Nat := 0x29

/-- LUT opcode WRITE_DDR (mimxrt600_fcb). -/
def WRITE_DDR : Nat := 0x28

/-- Pad count encoding: single pad (mimxrt600_fcb). -/
def Single : Nat := 0

/-- Pad count encoding: octal pads (mimxrt600_fcb). -/
def Octal : Nat := 3

/-- The LUT instruction-pair packing macro flexspi_lut_seq of the
mimxrt600_fcb crate: two (opcode, pads, operand) triples packed into one
32-bit LUT word. -/
def flexspi_lut_seq (op0 pad0 operand0 op1 pad1 operand1 : Nat) : Nat :=
  ((op1 <<< 10 ||| pad1 <<< 8 ||| operand1) <<< 16) |||
    (op0 <<< 10 ||| pad0 <<< 8 ||| operand0)

/-- 32-bit bitwise complement, modelling the Rust u32 not operator. -/
def u32_not (x : Nat) : Nat := 0xFFFFFFFF ^^^ x

/-- Register state touched by the pac-based RAM-mode command engine
(impl FlexSpiCmdPort of flexspi.rs, lines 693-858).  Each peripheral-access
field the engine writes is one component; the LUT store is indexed by plain
Nat. -/
structure RamRegs where
  lutkey : Nat
  lutcr_unlock : Bool
  ipcr0_sfar : Nat
  ipcr1_iseqid : Nat
  lut : Nat → Nat
  flshcr2b2_clrinstrptr : Bool
  iprxfcr_rxdmaen : Bool
  iptxfcr_txdmaen : Bool
  iprxfcr_rxwmrk : Nat
  iptxfcr_txwmrk : Nat
  iprxfcr_clriprxf : Bool
  iptxfcr_clriptxf : Bool

/-- One LUT-store word write through the peripheral-access API
(regs.lut(i).write in flexspi.rs). -/
def RamRegs.lutWrite (s : RamRegs) (i v : Nat) : RamRegs :=
  { s with lut := Function.update s.lut i v }

namespace CmdPortRam

/-- setup_cmd_transfer of impl FlexSpiCmdPort M Ram (flexspi.rs lines
701-801): unlock the LUT, load the address, program the command's LUT slot
and sequence id, reset the sequence pointer, disable DMA, program the FIFO
watermarks from the port's configured byte watermarks, and clear both FIFOs.
rx_watermark and tx_watermark are the port fields of the same names. -/
def setup_cmd_transfer (rx_watermark tx_watermark : Nat) (cmd : FlexSpiCmd)
    (addr : Option Nat) (s : RamRegs) : RamRegs :=
  let s := { s with lutkey := 0x5AF05AF0 }
  let s := { s with lutcr_unlock := true }
  let s := { s with ipcr0_sfar := match addr with | some a => a | none => 0 }
  let s :=
    match cmd with
    | FlexSpiCmd.WriteEnable =>
      let w0 := flexspi_lut_seq CMD_DDR Octal 0x06 CMD_DDR Octal 0xF9
      let s := s.lutWrite (3 * 4) w0
      let s := s.lutWrite (3 * 4 + 1) 0
      let s := s.lutWrite (3 * 4 + 2) 0
      let s := s.lutWrite (3 * 4 + 3) 0
      { s with ipcr1_iseqid := 3 }
    | FlexSpiCmd.ReadStatusRegister =>
      let w0 := flexspi_lut_seq CMD_DDR Octal 0x05 CMD_DDR Octal 0xFA
      let w1 := flexspi_lut_seq RADDR_DDR Octal 0x20 DUMMY_DDR Octal 0x18
      let w2 := flexspi_lut_seq READ_DDR Octal 0x1 STOP Single 0x0
      let s := s.lutWrite (1 * 4) w0
      let s := s.lutWrite (1 * 4 + 1) w1
      let s := s.lutWrite (1 * 4 + 2) w2
      let s := s.lutWrite (1 * 4 + 3) 0
      { s with ipcr1_iseqid := 1 }
    | FlexSpiCmd.EraseSector =>
      let w0 := flexspi_lut_seq CMD_DDR Octal 0x21 CMD_DDR Octal 0xDE
      let w1 := flexspi_lut_seq RADDR_DDR Octal 0x20 STOP Single 0x00
      let s := s.lutWrite (5 * 4) w0
      let s := s.lutWrite (5 * 4 + 1) w1
      let s := s.lutWrite (5 * 4 + 2) 0
      let s := s.lutWrite (5 * 4 + 3) 0
      { s with ipcr1_iseqid := 5 }
    | FlexSpiCmd.ReadId =>
      { s with ipcr1_iseqid := 12 }
    | FlexSpiCmd.PageProgram => s
  let s := { s with flshcr2b2_clrinstrptr := true }
  let s := { s with iprxfcr_rxdmaen := false }
  let s := { s with iptxfcr_txdmaen := false }
  let s := { s with iprxfcr_rxwmrk := rx_watermark / 8 - 1 }
  let s := { s with iptxfcr_txwmrk := tx_watermark / 8 - 1 }
  let s := { s with iprxfcr_clriprxf := true }
  let s := { s with iptxfcr_clriptxf := true }
  s

end CmdPortRam

/-- The raw register block struct FlexSpi shared by the execute-in-place
command port of flexspi.rs and the storage engine of flexspistorage.rs;
only the registers those engines touch are modelled, the LUT store and the
RX FIFO data registers as Nat-indexed functions. -/
structure FlexSpi where
  IPCR0 : Nat
  IPCR1 : Nat
  LUTKEY : Nat
  LUTCR : Nat
  IPCMD : Nat
  INTR : Nat
  IPRXFCR : Nat
  IPTXFCR : Nat
  IPRXFSTS : Nat
  FLSHCR2 : Fin 4 → Nat
  LUT : Nat → Nat
  RFDR : Nat → Nat

/-- One LUT-store word write through the raw register reference
(self.flexspi_ref.LUT assignment in the execute-in-place engines). -/
def FlexSpi.lutWrite (s : FlexSpi) (i v : Nat) : FlexSpi :=
  { s with LUT := Function.update s.LUT i v }

/-- Setting bit 31 of one FLSHCR2 register (the sequence-pointer reset of
the execute-in-place engines). -/
def FlexSpi.flshcr2SetBit31 (s : FlexSpi) (i : Fin 4) : FlexSpi :=
  { s with FLSHCR2 := Function.update s.FLSHCR2 i (s.FLSHCR2 i ||| (0x1 <<< 31)) }

namespace CmdPortXip

/-- setup_ip_transfer of impl FlexSpiCmdPort Blocking Xip (flexspi.rs lines
996-1077): load the address, clear the sequence-id field, unlock the LUT,
set bit 31 of all four FLSHCR2 registers, program the command's sequence id
and LUT slot through the From mapping, disable DMA and reset both FIFOs.
The watermark-programming statements of the source are commented out and so
have no counterpart here. -/
def setup_ip_transfer (cmd : FlexSpiCmd) (addr _data _size : Option Nat)
    (s : FlexSpi) : FlexSpi :=
  let s := { s with IPCR0 := match addr with | some a => a | none => 0 }
  let s := { s with IPCR1 := s.IPCR1 &&& u32_not (0x1F <<< 16) }
  let s := { s with LUTKEY := 0x5AF05AF0 }
  let s := { s with LUTCR := 0x2 }
  let s := s.flshcr2SetBit31 0
  let s := s.flshcr2SetBit31 1
  let s := s.flshcr2SetBit31 2
  let s := s.flshcr2SetBit31 3
  let s :=
    match cmd with
    | FlexSpiCmd.ReadId =>
      let cmd_idx := cmdIndex cmd
      let s := { s with IPCR1 := s.IPCR1 ||| (cmd_idx <<< 16) }
      let w0 := flexspi_lut_seq CMD_SDR Single 0x9F READ_SDR Single 0x4
      let s := s.lutWrite (LUT_NUM_REG_PER_SEQ * cmd_idx) w0
      let s := s.lutWrite (LUT_NUM_REG_PER_SEQ * cmd_idx + 1) 0
      let s := s.lutWrite (LUT_NUM_REG_PER_SEQ * cmd_idx + 2) 0
      s.lutWrite (LUT_NUM_REG_PER_SEQ * cmd_idx + 3) 0
    | FlexSpiCmd.WriteEnable =>
      let cmd_idx := cmdIndex cmd
      let s := { s with IPCR1 := s.IPCR1 ||| (cmd_idx <<< 16) }
      let w0 := flexspi_lut_seq CMD_DDR Octal 0x06 CMD_DDR Octal 0xF9
      let s := s.lutWrite (LUT_NUM_REG_PER_SEQ * cmd_idx) w0
      let s := s.lutWrite (LUT_NUM_REG_PER_SEQ * cmd_idx + 1) 0
      let s := s.lutWrite (LUT_NUM_REG_PER_SEQ * cmd_idx + 2) 0
      s.lutWrite (LUT_NUM_REG_PER_SEQ * cmd_idx + 3) 0
    | FlexSpiCmd.ReadStatusRegister =>
      let cmd_idx := cmdIndex cmd
      let s := { s with IPCR1 := s.IPCR1 ||| (cmd_idx <<< 16) }
      let w0 := flexspi_lut_seq CMD_DDR Octal 0x05 CMD_DDR Octal 0xFA
      let w1 := flexspi_lut_seq RADDR_DDR Octal 0x20 DUMMY_DDR Octal 0x18
      let w2 := flexspi_lut_seq READ_DDR Octal 0x1 STOP Single 0x0
      let s := s.lutWrite (LUT_NUM_REG_PER_SEQ * cmd_idx) w0
      let s := s.lutWrite (LUT_NUM_REG_PER_SEQ * cmd_idx + 1) w1
      let s := s.lutWrite (LUT_NUM_REG_PER_SEQ * cmd_idx + 2) w2
      s.lutWrite (LUT_NUM_REG_PER_SEQ * cmd_idx + 3) 0
    | FlexSpiCmd.EraseSector =>
      let cmd_idx := cmdIndex cmd
      let s := { s with IPCR1 := s.IPCR1 ||| (cmd_idx <<< 16) }
      let w0 := flexspi_lut_seq CMD_DDR Octal 0x21 CMD_DDR Octal 0xDE
      let w1 := flexspi_lut_seq RADDR_DDR Octal 0x20 STOP Single 0x0
      let s := s.lutWrite (LUT_NUM_REG_PER_SEQ * cmd_idx) w0
      let s := s.lutWrite (LUT_NUM_REG_PER_SEQ * cmd_idx + 1) w1
      let s := s.lutWrite (LUT_NUM_REG_PER_SEQ * cmd_idx + 2) 0
      s.lutWrite (LUT_NUM_REG_PER_SEQ * cmd_idx + 3) 0
    | FlexSpiCmd.PageProgram => s
  let s := { s with IPRXFCR := s.IPRXFCR &&& u32_not 0x2 }
  let s := { s with IPTXFCR := s.IPTXFCR &&& u32_not 0x2 }
  let s := { s with IPRXFCR := s.IPRXFCR ||| 0x1 }
  let s := { s with IPTXFCR := s.IPTXFCR ||| 0x1 }
  s

/-- execute_cmd of impl FlexSpiCmdPort Blocking Xip (flexspi.rs lines
1079-1083): set the trigger bit of the IP command register. -/
def execute_cmd (s : FlexSpi) : FlexSpi :=
  { s with IPCMD := s.IPCMD ||| 0x1 }

/-- The register writes performed by erase_sector of impl FlexSpiCmdPort
Blocking Xip (flexspi.rs lines 1118-1127) through the point where the
erase command is triggered: setup_ip_transfer for EraseSector at the given
address followed by execute_cmd.  The subsequent wait_for_cmd_completion
only reads INTR, and wait_for_operation_completion issues further
read-status commands, modelled separately by erase_sector_events. -/
def erase_sector_regs (addr : Nat) (s : FlexSpi) : FlexSpi :=
  execute_cmd (setup_ip_transfer FlexSpiCmd.EraseSector (some addr) none none s)

end CmdPortXip

namespace FlexspiStorage

/-- setup_ip_transfer of impl FlexspiStorage Blocking (flexspistorage.rs
lines 645-704): identical to the execute-in-place command-port variant
except that no LUT slot is written for any command; only the sequence id is
selected through the From mapping.  The watermark-programming statements of
the source are commented out and so have no counterpart here. -/
def setup_ip_transfer (cmd : FlexSpiCmd) (addr _data _size : Option Nat)
    (s : FlexSpi) : FlexSpi :=
  let s := { s with IPCR0 := match addr with | some a => a | none => 0 }
  let s := { s with IPCR1 := s.IPCR1 &&& u32_not (0x1F <<< 16) }
  let s := { s with LUTKEY := 0x5AF05AF0 }
  let s := { s with LUTCR := 0x2 }
  let s := s.flshcr2SetBit31 0
  let s := s.flshcr2SetBit31 1
  let s := s.flshcr2SetBit31 2
  let s := s.flshcr2SetBit31 3
  let s :=
    match cmd with
    | FlexSpiCmd.ReadId =>
      { s with IPCR1 := s.IPCR1 ||| (cmdIndex cmd <<< 16) }
    | FlexSpiCmd.WriteEnable =>
      { s with IPCR1 := s.IPCR1 ||| (cmdIndex cmd <<< 16) }
    | FlexSpiCmd.ReadStatusRegister =>
      { s with IPCR1 := s.IPCR1 ||| (cmdIndex cmd <<< 16) }
    | FlexSpiCmd.EraseSector =>
      { s with IPCR1 := s.IPCR1 ||| (cmdIndex cmd <<< 16) }
    | FlexSpiCmd.PageProgram => s
  let s := { s with IPRXFCR := s.IPRXFCR &&& u32_not 0x2 }
  let s := { s with IPTXFCR := s.IPTXFCR &&& u32_not 0x2 }
  let s := { s with IPRXFCR := s.IPRXFCR ||| 0x1 }
  let s := { s with IPTXFCR := s.IPTXFCR ||| 0x1 }
  s

end FlexspiStorage

/-- The LUT slot index and the four instruction words that the RAM-mode
setup_cmd_transfer writes, read off its match arms; none for ReadId and
PageProgram, whose arms write no LUT word at all. -/
def ram_lut_program : FlexSpiCmd → Option (Nat × (Fin 4 → Nat))
  | FlexSpiCmd.WriteEnable =>
    some (3, ![flexspi_lut_seq CMD_DDR Octal 0x06 CMD_DDR Octal 0xF9, 0, 0, 0])
  | FlexSpiCmd.ReadStatusRegister =>
    some (1, ![flexspi_lut_seq CMD_DDR Octal 0x05 CMD_DDR Octal 0xFA,
               flexspi_lut_seq RADDR_DDR Octal 0x20 DUMMY_DDR Octal 0x18,
               flexspi_lut_seq READ_DDR Octal 0x1 STOP Single 0x0, 0])
  | FlexSpiCmd.EraseSector =>
    some (5, ![flexspi_lut_seq CMD_DDR Octal 0x21 CMD_DDR Octal 0xDE,
               flexspi_lut_seq RADDR_DDR Octal 0x20 STOP Single 0x00, 0, 0])
  | FlexSpiCmd.ReadId => none
  | FlexSpiCmd.PageProgram => none

/-- The four instruction words that the execute-in-place setup_ip_transfer
writes into slot cmdIndex cmd, read off its match arms; none for
PageProgram, whose arm writes nothing. -/
def xip_lut_program : FlexSpiCmd → Option (Fin 4 → Nat)
  | FlexSpiCmd.ReadId =>
    some ![flexspi_lut_seq CMD_SDR Single 0x9F READ_SDR Single 0x4, 0, 0, 0]
  | FlexSpiCmd.WriteEnable =>
    some ![flexspi_lut_seq CMD_DDR Octal 0x06 CMD_DDR Octal 0xF9, 0, 0, 0]
  | FlexSpiCmd.ReadStatusRegister =>
    some ![flexspi_lut_seq CMD_DDR Octal 0x05 CMD_DDR Octal 0xFA,
           flexspi_lut_seq RADDR_DDR Octal 0x20 DUMMY_DDR Octal 0x18,
           flexspi_lut_seq READ_DDR Octal 0x1 STOP Single 0x0, 0]
  | FlexSpiCmd.EraseSector =>
    some ![flexspi_lut_seq CMD_DDR Octal 0x21 CMD_DDR Octal 0xDE,
           flexspi_lut_seq RADDR_DDR Octal 0x20 STOP Single 0x0, 0, 0]
  | FlexSpiCmd.PageProgram => none

/-- The sequence-id field ISEQID of the IPCR1 register, bits 16-20 (the
field the raw engines manipulate with the 0x1F <<< 16 mask). -/
def iseqid_field (v : Nat) : Nat := (v >>> 16) &&& 0x1F

/-- The watermark field of the IP RX/TX FIFO control registers, bits 2-7
(the field named by the commented-out 0x3F <<< 2 mask of the source). -/
def fifo_wmrk_field (v : Nat) : Nat := (v >>> 2) &&& 0x3F

/-- An all-zero raw register state used for concrete evaluations. -/
def flexSpiZero : FlexSpi :=
  { IPCR0 := 0, IPCR1 := 0, LUTKEY := 0, LUTCR := 0, IPCMD := 0, INTR := 0,
    IPRXFCR := 0, IPTXFCR := 0, IPRXFSTS := 0, FLSHCR2 := fun _ => 0,
    LUT := fun _ => 0, RFDR := fun _ => 0 }

/-- A RAM-engine register state whose LUT words carry the distinctive
sentinel 1000 + index, used to observe which words a call overwrites. -/
def ramRegsSentinel : RamRegs :=
  { lutkey := 0, lutcr_unlock := false, ipcr0_sfar := 0, ipcr1_iseqid := 0,
    lut := fun i => 1000 + i, flshcr2b2_clrinstrptr := false,
    iprxfcr_rxdmaen := true, iptxfcr_txdmaen := true, iprxfcr_rxwmrk := 0,
    iptxfcr_txwmrk := 0, iprxfcr_clriprxf := false,
    iptxfcr_clriptxf := false }

/-- Outcome of an erase entry point: either the fatal rejection path (the
source panics) carrying the register state at the moment of rejection, or
normal completion. -/
inductive EraseOutcome where
  | rejected (message : String) (s : FlexSpi)
  | completed (s : FlexSpi)

/-- Whether the outcome is the rejection path. -/
def EraseOutcome.isRejected : EraseOutcome → Bool
  | EraseOutcome.rejected _ _ => true
  | EraseOutcome.completed _ => false

/-- The register state carried by the outcome. -/
def EraseOutcome.state : EraseOutcome → FlexSpi
  | EraseOutcome.rejected _ s => s
  | EraseOutcome.completed s => s

namespace DataPortXip

/-- read of impl BlockingReadNorFlash for FlexSpiDataPort Blocking Xip
(flexspi.rs lines 916-931): one byte load from the memory window at
0x08000000 + offset into element 0 of the caller's buffer.  mem gives the
byte content of the memory window; an empty buffer would fail the index
and is modelled as none. -/
def read (mem : Nat → Nat) (offset : Nat) (bytes : List Nat) :
    Option (List Nat) :=
  match bytes with
  | [] => none
  | _ :: _ => some (bytes.set 0 (mem (0x08000000 + offset)))

/-- erase of impl BlockingNorFlash for FlexSpiDataPort Blocking Xip
(flexspi.rs lines 974-980): the body is a single unconditional runtime
abort, reached before any register access; it is modelled as the rejected
outcome carrying the register state unchanged. -/
def erase (_addr_from _addr_to : Nat) (s : FlexSpi) : EraseOutcome :=
  EraseOutcome.rejected
    "Erase operation is not implemented for Data Port. Please use Command Port for erase operation"
    s

end DataPortXip

/-- One write-in-progress poll loop over an oracle giving the status byte
returned by the k-th read_status invocation, with explicit fuel.  The
returned list is the sequence of observed status values, ending with the
first one whose write-in-progress bit (bit 0) is clear; none means the
fuel ran out while the bit stayed set (the source would keep spinning). -/
def wip_poll (oracle : Nat → Nat) : Nat → Nat → Option (List Nat)
  | _, 0 => none
  | k, fuel + 1 =>
    let v := oracle k
    if v &&& 0x1 = 0 then some [v]
    else (wip_poll oracle (k + 1) fuel).map (fun l => v :: l)

/-- Abstract engine events: which transfers an erase path sets up, when it
triggers and polls command completion, and which flash-status values it
observes. -/
inductive EngineEvent where
  | setupTransfer (cmd : FlexSpiCmd)
  | trigger
  | pollCmdDone
  | statusRead (value : Nat)
deriving DecidableEq, Repr

/-- Whether an event is a flash-status observation. -/
def EngineEvent.isStatusRead : EngineEvent → Bool
  | EngineEvent.statusRead _ => true
  | _ => false

/-- The event sequence of one read-status invocation (setup, trigger, poll
for command completion, read one status value out of the RX FIFO). -/
def statusReadEvents (v : Nat) : List EngineEvent :=
  [EngineEvent.setupTransfer FlexSpiCmd.ReadStatusRegister,
   EngineEvent.trigger, EngineEvent.pollCmdDone, EngineEvent.statusRead v]

namespace CmdPortRam

/-- The event trace of erase of impl BlockingNorFlash for FlexSpiCmdPort
Blocking Ram (flexspi.rs lines 666-674): setup_cmd_transfer for
EraseSector, execute_cmd, wait_for_cmd_completion, and nothing else: this
erase never reads the flash status register. -/
def erase_events : List EngineEvent :=
  [EngineEvent.setupTransfer FlexSpiCmd.EraseSector,
   EngineEvent.trigger, EngineEvent.pollCmdDone]

end CmdPortRam

namespace CmdPortXip

/-- The event trace of erase_sector of impl FlexSpiCmdPort Blocking Xip
(flexspi.rs lines 1118-1127): setup_ip_transfer for EraseSector,
execute_cmd, wait_for_cmd_completion, then wait_for_operation_completion,
which repeats read_status_register until the observed value has bit 0
clear.  oracle gives the successive observed status values, fuel bounds
the poll loop. -/
def erase_sector_events (oracle : Nat → Nat) (fuel : Nat) :
    Option (List EngineEvent) :=
  (wip_poll oracle 0 fuel).map (fun obs =>
    [EngineEvent.setupTransfer FlexSpiCmd.EraseSector,
     EngineEvent.trigger, EngineEvent.pollCmdDone] ++
      obs.flatMap statusReadEvents)

end CmdPortXip

namespace FlexspiStorage

/-- The event trace of erase of impl BlockingNorFlash for FlexspiStorage
Blocking (flexspistorage.rs lines 563-576): setup_ip_transfer for
EraseSector, execute_cmd, wait_for_cmd_completion, then a loop reading
read_status_reg until the observed value has bit 0 clear. -/
def erase_events (oracle : Nat → Nat) (fuel : Nat) :
    Option (List EngineEvent) :=
  (wip_poll oracle 0 fuel).map (fun obs =>
    [EngineEvent.setupTransfer FlexSpiCmd.EraseSector,
     EngineEvent.trigger, EngineEvent.pollCmdDone] ++
      obs.flatMap statusReadEvents)

/-- read of impl BlockingReadNorFlash for FlexspiStorage Blocking
(flexspistorage.rs lines 504-516): identical to the execute-in-place data
port read. -/
def read (mem : Nat → Nat) (offset : Nat) (bytes : List Nat) :
    Option (List Nat) :=
  match bytes with
  | [] => none
  | _ :: _ => some (bytes.set 0 (mem (0x08000000 + offset)))

end FlexspiStorage

/-- The FIFO fill-level busy-wait at the head of the byte-oriented
read_cmd_data implementations: spin while (IPRXFSTS &&& 0xFF) * 8 is below
the requested size.  fill gives the successive fill-register reads, fuel
bounds the loop. -/
def fifo_fill_wait (fill : Nat → Nat) (size : Nat) : Nat → Nat → Option Unit
  | _, 0 => none
  | k, fuel + 1 =>
    if (fill k &&& 0xFF) * 8 < size then fifo_fill_wait fill size (k + 1) fuel
    else some ()

namespace CmdPortXip

/-- read_cmd_data of impl FlexSpiCmdPort Blocking Xip (flexspi.rs lines
1094-1103): wait for the RX FIFO fill level to cover the requested size,
then write the low byte of RX FIFO word 0 into element 0 of the caller's
buffer and nothing else.  An empty buffer would fail the unwrap indexing
and is modelled as none. -/
def read_cmd_data (s : FlexSpi) (fill : Nat → Nat) (fuel : Nat)
    (size : Nat) (read_data : List Nat) : Option (List Nat) :=
  match fifo_fill_wait fill size 0 fuel with
  | none => none
  | some _ =>
    match read_data with
    | [] => none
    | _ :: _ => some (read_data.set 0 (s.RFDR 0 % 256))

end CmdPortXip

namespace FlexspiStorage

/-- read_cmd_data of impl FlexspiStorage Blocking (flexspistorage.rs lines
710-720): identical to the execute-in-place command-port variant. -/
def read_cmd_data (s : FlexSpi) (fill : Nat → Nat) (fuel : Nat)
    (size : Nat) (read_data : List Nat) : Option (List Nat) :=
  match fifo_fill_wait fill size 0 fuel with
  | none => none
  | some _ =>
    match read_data with
    | [] => none
    | _ :: _ => some (read_data.set 0 (s.RFDR 0 % 256))

end FlexspiStorage

/-- The STS2 DLL status bits read by the configure_flexspi_device lock
wait. -/
structure Sts2 where
  aslvlock : Bool
  areflock : Bool
  bslvlock : Bool
  breflock : Bool
deriving DecidableEq, Repr

/-- The DLL-lock busy-wait of configure_flexspi_device (flexspi.rs lines
1661-1682; identical copy in flexspistorage.rs lines 1226-1246).  Each
iteration reads STS2 twice, once per tested bit; trace k is the value of
the k-th read.  The loop continues while the first read shows the selected
slave-delay lock clear AND the second read shows the selected reference
lock clear; on exit the pair of observed bit values is returned. -/
def dll_lock_wait (slv ref : Sts2 → Bool) (trace : Nat → Sts2) :
    Nat → Nat → Option (Bool × Bool)
  | _, 0 => none
  | k, fuel + 1 =>
    let a := slv (trace k)
    let b := ref (trace (k + 1))
    if a = false ∧ b = false then dll_lock_wait slv ref trace (k + 2) fuel
    else some (a, b)

/-- The tail of configure_flexspi_device after the module is re-enabled:
the per-port DLL lock wait followed by the fixed 100 no-op errata delay
(ERR011377); the returned number is the count of no-ops executed after the
wait exits. -/
def configure_flexspi_device_tail (port : FlexSpiFlashPort)
    (trace : Nat → Sts2) (fuel : Nat) : Option ((Bool × Bool) × Nat) :=
  match port with
  | FlexSpiFlashPort.PortA =>
    (dll_lock_wait Sts2.aslvlock Sts2.areflock trace 0 fuel).map
      (fun p => (p, 100))
  | FlexSpiFlashPort.PortB =>
    (dll_lock_wait Sts2.bslvlock Sts2.breflock trace 0 fuel).map
      (fun p => (p, 100))

/-- One AHB RX buffer control register at field granularity. -/
structure AhbBufReg where
  mstrid : Nat
  prefetchen : Bool
  bufsz : Nat
  priority : Nat
deriving DecidableEq, Repr

/-- The fixed value every ahbrxbufXcr0 modify of configure_flexspi writes:
master 0, prefetch enabled, size 256, priority 0. -/
def hardcodedAhbBufReg : AhbBufReg :=
  { mstrid := 0, prefetchen := true, bufsz := 256, priority := 0 }

/-- Register state written by configure_flexspi (flexspi.rs lines
1166-1390; near-identical copy in flexspistorage.rs lines 731-955), at
field granularity. -/
structure ConfigRegs where
  mcr0_mdis : Bool
  mcr0_swreset : Bool
  mcr0_rxclksrc : Nat
  mcr0_dozeen : Bool
  mcr0_sckfreerunen : Bool
  mcr0_hsen : Bool
  mcr1_ahbbuswait : Nat
  mcr1_seqwait : Nat
  mcr2_samedeviceen : Bool
  mcr2_resumewait : Nat
  mcr2_sckbdiffopt : Bool
  mcr2_clrahbbufopt : Bool
  ahbcr_readaddropt : Bool
  ahbcr_prefetchen : Bool
  ahbcr_bufferableen : Bool
  ahbcr_cachableen : Bool
  ahbrxbuf : Fin 8 → AhbBufReg
  flshsz : FlexSpiFlashPort → FlexSpiFlashPortDeviceInstance → Nat
  iprxfcr_rxwmrk : Nat
  iptxfcr_txwmrk : Nat

/-- Write the flash-size field of the bound port and device instance. -/
def setFlshsz (f : FlexSpiFlashPort → FlexSpiFlashPortDeviceInstance → Nat)
    (port : FlexSpiFlashPort) (inst : FlexSpiFlashPortDeviceInstance)
    (v : Nat) : FlexSpiFlashPort → FlexSpiFlashPortDeviceInstance → Nat :=
  fun p i => if p = port ∧ i = inst then v else f p i

/-- Field write of the MDIS bit of MCR0. -/
def ConfigRegs.wrMdis (s : ConfigRegs) (v : Bool) : ConfigRegs :=
  { s with mcr0_mdis := v }

/-- Field write of the SWRESET bit of MCR0. -/
def ConfigRegs.wrSwreset (s : ConfigRegs) (v : Bool) : ConfigRegs :=
  { s with mcr0_swreset := v }

/-- Field write of the RXCLKSRC field of MCR0. -/
def ConfigRegs.wrRxclksrc (s : ConfigRegs) (v : Nat) : ConfigRegs :=
  { s with mcr0_rxclksrc := v }

/-- Field write of the DOZEEN bit of MCR0. -/
def ConfigRegs.wrDozeen (s : ConfigRegs) (v : Bool) : ConfigRegs :=
  { s with mcr0_dozeen := v }

/-- Field write of the SCKFREERUNEN bit of MCR0. -/
def ConfigRegs.wrSckfreerunen (s : ConfigRegs) (v : Bool) : ConfigRegs :=
  { s with mcr0_sckfreerunen := v }

/-- Field write of the HSEN bit of MCR0. -/
def ConfigRegs.wrHsen (s : ConfigRegs) (v : Bool) : ConfigRegs :=
  { s with mcr0_hsen := v }

/-- Field write of the AHBBUSWAIT field of MCR1. -/
def ConfigRegs.wrAhbbuswait (s : ConfigRegs) (v : Nat) : ConfigRegs :=
  { s with mcr1_ahbbuswait := v }

/-- Field write of the SEQWAIT field of MCR1. -/
def ConfigRegs.wrSeqwait (s : ConfigRegs) (v : Nat) : ConfigRegs :=
  { s with mcr1_seqwait := v }

/-- Field write of the SAMEDEVICEEN bit of MCR2. -/
def ConfigRegs.wrSamedeviceen (s : ConfigRegs) (v : Bool) : ConfigRegs :=
  { s with mcr2_samedeviceen := v }

/-- Field write of the RESUMEWAIT field of MCR2. -/
def ConfigRegs.wrResumewait (s : ConfigRegs) (v : Nat) : ConfigRegs :=
  { s with mcr2_resumewait := v }

/-- Field write of the SCKBDIFFOPT bit of MCR2. -/
def ConfigRegs.wrSckbdiffopt (s : ConfigRegs) (v : Bool) : ConfigRegs :=
  { s with mcr2_sckbdiffopt := v }

/-- Field write of the CLRAHBBUFOPT bit of MCR2. -/
def ConfigRegs.wrClrahbbufopt (s : ConfigRegs) (v : Bool) : ConfigRegs :=
  { s with mcr2_clrahbbufopt := v }

/-- Field write of the READADDROPT bit of AHBCR. -/
def ConfigRegs.wrReadaddropt (s : ConfigRegs) (v : Bool) : ConfigRegs :=
  { s with ahbcr_readaddropt := v }

/-- Field write of the PREFETCHEN bit of AHBCR. -/
def ConfigRegs.wrPrefetchen (s : ConfigRegs) (v : Bool) : ConfigRegs :=
  { s with ahbcr_prefetchen := v }

/-- Field write of the BUFFERABLEEN bit of AHBCR. -/
def ConfigRegs.wrBufferableen (s : ConfigRegs) (v : Bool) : ConfigRegs :=
  { s with ahbcr_bufferableen := v }

/-- Field write of the CACHABLEEN bit of AHBCR. -/
def ConfigRegs.wrCachableen (s : ConfigRegs) (v : Bool) : ConfigRegs :=
  { s with ahbcr_cachableen := v }

/-- Write of one AHB RX buffer control register. -/
def ConfigRegs.wrAhbrxbuf (s : ConfigRegs) (i : Fin 8) (v : AhbBufReg) :
    ConfigRegs :=
  { s with ahbrxbuf := Function.update s.ahbrxbuf i v }

/-- Write of the FLSHSZ field of the bound port and device instance. -/
def ConfigRegs.wrFlshsz (s : ConfigRegs) (port : FlexSpiFlashPort)
    (inst : FlexSpiFlashPortDeviceInstance) (v : Nat) : ConfigRegs :=
  { s with flshsz := setFlshsz s.flshsz port inst v }

/-- Field write of the RXWMRK field of IPRXFCR. -/
def ConfigRegs.wrRxwmrk (s : ConfigRegs) (v : Nat) : ConfigRegs :=
  { s with iprxfcr_rxwmrk := v }

/-- Field write of the TXWMRK field of IPTXFCR. -/
def ConfigRegs.wrTxwmrk (s : ConfigRegs) (v : Nat) : ConfigRegs :=
  { s with iptxfcr_txwmrk := v }

/-- configure_flexspi of FlexSpiConfigurationPort Ram (flexspi.rs lines
1166-1390): module reset and stop, module-control and AHB-control fields
from the configuration, then the 8 AHB RX buffer registers, each written
with the fixed hardcodedAhbBufReg value (the caller-supplied buffer array
of the configuration is never consulted), then flash size zero for the
bound port/instance and both IP FIFO watermark fields zero. -/
def configure_flexspi (port : FlexSpiFlashPort)
    (inst : FlexSpiFlashPortDeviceInstance) (config : FlexspiConfig)
    (s : ConfigRegs) : ConfigRegs :=
  let s := s.wrMdis false
  let s := s.wrSwreset true
  let s := s.wrMdis true
  let rxclksrc :=
    match config.rx_sample_clock with
    | FlexspiReadSampleClock.FlexspiReadSampleClkLoopbackInternally => 0
    | FlexspiReadSampleClock.FlexspiReadSampleClkLoopbackFromDqsPad => 1
    | FlexspiReadSampleClock.FlexspiReadSampleClkLoopbackFromSckPad => 3
    | FlexspiReadSampleClock.FlexspiReadSampleClkExternalInputFromDqsPad => 3
  let s := s.wrRxclksrc rxclksrc
  let s := s.wrDozeen config.enable_doze
  let s := s.wrSckfreerunen config.enable_sck_free_running
  let s := s.wrHsen config.enable_half_speed_access
  let s := s.wrAhbbuswait config.ahb_config.ahb_bus_timeout_cycle
  let s := s.wrSeqwait config.seq_timeout_cycle
  let s := s.wrSamedeviceen config.enable_same_config_for_all
  let s := s.wrResumewait config.ahb_config.resume_wait_cycle
  let s := s.wrSckbdiffopt config.enable_sck_b_diff_opt
  let s := s.wrClrahbbufopt config.ahb_config.enable_clear_ahb_buffer_opt
  let s := s.wrReadaddropt config.ahb_config.enable_read_address_opt
  let s := s.wrPrefetchen config.ahb_config.enable_ahb_prefetch
  let s := s.wrBufferableen config.ahb_config.enable_ahb_bufferable
  let s := s.wrCachableen config.ahb_config.enable_ahb_cachable
  let s := s.wrAhbrxbuf 0 hardcodedAhbBufReg
  let s := s.wrAhbrxbuf 1 hardcodedAhbBufReg
  let s := s.wrAhbrxbuf 2 hardcodedAhbBufReg
  let s := s.wrAhbrxbuf 3 hardcodedAhbBufReg
  let s := s.wrAhbrxbuf 4 hardcodedAhbBufReg
  let s := s.wrAhbrxbuf 5 hardcodedAhbBufReg
  let s := s.wrAhbrxbuf 6 hardcodedAhbBufReg
  let s := s.wrAhbrxbuf 7 hardcodedAhbBufReg
  let s := s.wrFlshsz port inst 0
  let s := s.wrRxwmrk 0
  let s := s.wrTxwmrk 0
  s

/-- An all-zero configuration register state for concrete evaluations. -/
def configRegsZero : ConfigRegs :=
  { mcr0_mdis := false, mcr0_swreset := false, mcr0_rxclksrc := 0,
    mcr0_dozeen := false, mcr0_sckfreerunen := false, mcr0_hsen := false,
    mcr1_ahbbuswait := 0, mcr1_seqwait := 0, mcr2_samedeviceen := false,
    mcr2_resumewait := 0, mcr2_sckbdiffopt := false,
    mcr2_clrahbbufopt := false, ahbcr_readaddropt := false,
    ahbcr_prefetchen := false, ahbcr_bufferableen := false,
    ahbcr_cachableen := false,
    ahbrxbuf := fun _ => { mstrid := 0, prefetchen := false, bufsz := 0, priority := 0 },
    flshsz := fun _ _ => 0, iprxfcr_rxwmrk := 0, iptxfcr_txwmrk := 0 }

/-- A buffer configuration distinct from the hardcoded value in every
field, used to observe that the caller-supplied array is ignored. -/
def distinctBufferConfig : FlexspiAhbBufferConfig :=
  { priority := 1, master_index := 5, buffer_size := 64,
    enable_prefetch := false }

/-- A FlexspiConfig whose AHB buffer array carries distinctBufferConfig in
every slot. -/
def distinctBufferFlexspiConfig : FlexspiConfig :=
  { externalStrobeConfig with
      ahb_config := { sampleAhbConfig with buffer := fun _ => distinctBufferConfig } }

/-- C1 counterexample: for the device configuration with the external-strobe
sampling mode and is_sck2_enabled = false (root clock 200 MHz),
calc_dll_value returns 0x79, not 0x100: the code treats a DISABLED secondary
sample clock as the non-unified case. -/
theorem calc_dll_external_sck2_disabled_not_fixed :
    calc_dll_value
      { sampleDeviceConfig with
          is_sck2_enabled := false
          flexspi_root_clk := 200000000 }
      externalStrobeConfig ≠ 0x100 := by
  decide

/-- C1 (amended): for every device configuration whose rx_sample_clock is the
external-strobe-from-pad variant and whose is_sck2_enabled field is TRUE,
calc_dll_value returns 0x100, regardless of flexspi_root_clk and
data_valid_time. -/
theorem calc_dll_external_sck2_enabled_fixed
    (dc : FlexspiDeviceConfig) (fc : FlexspiConfig)
    (hclk : fc.rx_sample_clock =
      FlexspiReadSampleClock.FlexspiReadSampleClkExternalInputFromDqsPad)
    (hsck : dc.is_sck2_enabled = true) :
    calc_dll_value dc fc = 0x100 := by
  unfold calc_dll_value
  rw [hclk]
  simp [hsck]

/-- C1 witness: the amended theorem applied at a concrete configuration. -/
theorem calc_dll_external_sck2_enabled_fixed_witness :
    externalStrobeConfig.rx_sample_clock =
      FlexspiReadSampleClock.FlexspiReadSampleClkExternalInputFromDqsPad ∧
    sampleDeviceConfig.is_sck2_enabled = true ∧
    calc_dll_value sampleDeviceConfig externalStrobeConfig = 0x100 :=
  ⟨rfl, rfl, calc_dll_external_sck2_enabled_fixed sampleDeviceConfig
    externalStrobeConfig rfl rfl⟩

/-- C2 counterexample: at the input rx_sample_clock = external strobe,
is_sck2_enabled = true, flexspi_root_clk = 48 MHz, data_valid_time = 2 the
code returns 0x100 (the unified-configuration arm), not 0x3100: with the
secondary clock ENABLED the data-valid-time formula is never reached. -/
theorem calc_dll_sck2_enabled_48mhz_not_formula :
    calc_dll_value
      { sampleDeviceConfig with
          is_sck2_enabled := true
          flexspi_root_clk := 48000000
          data_valid_time := 2 }
      externalStrobeConfig ≠ 0x3100 := by
  decide

/-- C2 (amended): every external-strobe configuration with the secondary
clock DISABLED and root clock below 100 MHz yields
0x1 <<< 8 ||| ((ceil of data_valid_time x 1000 / 75 &&& 0x78) <<< 9); in
particular 48 MHz with data_valid_time = 2 yields 0x3100 (see witness). -/
theorem calc_dll_external_sck2_disabled_slow
    (dc : FlexspiDeviceConfig) (fc : FlexspiConfig)
    (hclk : fc.rx_sample_clock =
      FlexspiReadSampleClock.FlexspiReadSampleClkExternalInputFromDqsPad)
    (hsck : dc.is_sck2_enabled = false)
    (hroot : dc.flexspi_root_clk < 100000000) :
    calc_dll_value dc fc =
      (0x1 <<< 8) |||
        ((((dc.data_valid_time * 1000 + 74) / 75) &&& 0x78) <<< 9) := by
  unfold calc_dll_value
  rw [hclk]
  simp only [hsck, if_false]
  have hlt : ¬ (dc.flexspi_root_clk ≥ 100000000) := by omega
  rw [if_neg hlt]
  have hceil :
      (if dc.data_valid_time * 1000 / 75 * 75 < dc.data_valid_time * 1000
        then dc.data_valid_time * 1000 / 75 + 1
        else dc.data_valid_time * 1000 / 75) =
      (dc.data_valid_time * 1000 + 74) / 75 := by
    split_ifs <;> omega
  rw [hceil]
  simp

/-- C2 witness: the amended theorem at the 48 MHz, data_valid_time = 2
configuration (with the secondary clock disabled) produces 0x3100, the value
the spec computes for this input. -/
theorem calc_dll_external_sck2_disabled_slow_witness :
    externalStrobeConfig.rx_sample_clock =
      FlexspiReadSampleClock.FlexspiReadSampleClkExternalInputFromDqsPad ∧
    ({ sampleDeviceConfig with is_sck2_enabled := false
       } : FlexspiDeviceConfig).is_sck2_enabled = false ∧
    calc_dll_value { sampleDeviceConfig with is_sck2_enabled := false }
      externalStrobeConfig = 0x3100 := by
  refine ⟨rfl, rfl, ?_⟩
  have h := calc_dll_external_sck2_disabled_slow
    { sampleDeviceConfig with is_sck2_enabled := false }
    externalStrobeConfig rfl rfl (by decide)
  simpa using h

/-- Helper: writing a value into the ISEQID field over an arbitrary prior
register value (clear with the inverted mask, then or the shifted value in)
leaves exactly that value in the field, for field values below 32. -/
theorem iseqid_field_set (x n : Nat) (hn : n < 32) :
    iseqid_field ((x &&& u32_not (0x1F <<< 16)) ||| (n <<< 16)) = n := by
  have h31 : (0xFFFFFFFF : Nat) = 2 ^ 32 - 1 := by norm_num
  have h1f : (0x1F : Nat) = 2 ^ 5 - 1 := by norm_num
  apply Nat.eq_of_testBit_eq
  intro i
  simp only [iseqid_field, u32_not, h31, h1f, Nat.testBit_and, Nat.testBit_or,
    Nat.testBit_xor, Nat.testBit_shiftLeft, Nat.testBit_shiftRight,
    Nat.testBit_two_pow_sub_one]
  rcases Nat.lt_or_ge i 5 with hi | hi
  · have hge : 16 ≤ 16 + i := by omega
    have h32 : 16 + i < 32 := by omega
    have hsub : 16 + i - 16 = i := by omega
    simp [hge, h32, hsub, hi]
  · have hlow : n.testBit i = false := Nat.testBit_lt_two_pow (by
      calc n < 32 := hn
        _ = 2 ^ 5 := by norm_num
        _ ≤ 2 ^ i := Nat.pow_le_pow_right (by norm_num) hi)
    simp [hlow, Nat.not_lt.mpr hi]

/-- Helper: the DMA-disable and FIFO-clear bit operations of the raw
engines (clear bit 1, set bit 0) do not change the watermark field in
bits 2-7. -/
theorem fifo_wmrk_field_preserved (x : Nat) :
    fifo_wmrk_field ((x &&& u32_not 0x2) ||| 0x1) = fifo_wmrk_field x := by
  have h31 : (0xFFFFFFFF : Nat) = 2 ^ 32 - 1 := by norm_num
  have h3f : (0x3F : Nat) = 2 ^ 6 - 1 := by norm_num
  have ht2 : ∀ j, (0x2 : Nat).testBit j = decide (1 = j) := fun j => by
    rw [show (0x2 : Nat) = 2 ^ 1 by norm_num, Nat.testBit_two_pow]
  have ht1 : ∀ j, (0x1 : Nat).testBit j = decide (0 = j) := fun j => by
    rw [show (0x1 : Nat) = 2 ^ 0 by norm_num, Nat.testBit_two_pow]
  apply Nat.eq_of_testBit_eq
  intro i
  simp only [fifo_wmrk_field, h31, h3f, u32_not, Nat.testBit_and,
    Nat.testBit_or, Nat.testBit_xor, Nat.testBit_shiftRight,
    Nat.testBit_two_pow_sub_one, ht2, ht1]
  rcases Nat.lt_or_ge i 6 with hi | hi
  · have h32 : 2 + i < 32 := by omega
    have hne1 : ¬ (1 = 2 + i) := by omega
    have hne0 : ¬ (0 = 2 + i) := by omega
    simp [h32, hne1, hne0, hi]
  · simp [Nat.not_lt.mpr hi]

/-- C3 counterexample: the RAM-engine setup_cmd_transfer for ReadId writes
no LUT word at all: both the word of the slot the From mapping assigns to
ReadId (slot 1, word 4) and the word of the slot it actually selects as
sequence id (slot 12, word 48) retain their pre-invocation sentinel
values, contradicting the full-overwrite invariant. -/
theorem setup_cmd_transfer_read_id_retains_slot :
    (CmdPortRam.setup_cmd_transfer 8 8 FlexSpiCmd.ReadId none
      ramRegsSentinel).lut (4 * cmdIndex FlexSpiCmd.ReadId) = 1004 ∧
    (CmdPortRam.setup_cmd_transfer 8 8 FlexSpiCmd.ReadId none
      ramRegsSentinel).lut 48 = 1048 ∧
    ramRegsSentinel.lut (4 * cmdIndex FlexSpiCmd.ReadId) = 1004 ∧
    ramRegsSentinel.lut 48 = 1048 :=
  ⟨rfl, rfl, rfl, rfl⟩

/-- C3 (amended): the execute-in-place setup_ip_transfer fully programs all
4 words of slot cmdIndex cmd for ReadId, WriteEnable, ReadStatusRegister
and EraseSector, with unused trailing words zero and values independent of
any prior register state; the RAM setup_cmd_transfer does the same only for
WriteEnable (slot 3), ReadStatusRegister (slot 1) and EraseSector (slot 5),
while its ReadId arm leaves the whole LUT store untouched. -/
theorem lut_slot_fully_programmed
    (cmd : FlexSpiCmd) (rxw txw : Nat) (addr a d z : Option Nat)
    (sr : RamRegs) (sx : FlexSpi) :
    (∀ prog, xip_lut_program cmd = some prog → ∀ j : Fin 4,
      (CmdPortXip.setup_ip_transfer cmd a d z sx).LUT
        (LUT_NUM_REG_PER_SEQ * cmdIndex cmd + (j : Nat)) = prog j) ∧
    (∀ slot prog, ram_lut_program cmd = some (slot, prog) → ∀ j : Fin 4,
      (CmdPortRam.setup_cmd_transfer rxw txw cmd addr sr).lut
        (4 * slot + (j : Nat)) = prog j) ∧
    (cmd = FlexSpiCmd.ReadId →
      (CmdPortRam.setup_cmd_transfer rxw txw cmd addr sr).lut = sr.lut) := by
  refine ⟨?_, ?_, ?_⟩
  · intro prog hp j
    cases cmd
    case PageProgram => exact Option.noConfusion hp
    all_goals simp only [xip_lut_program, Option.some.injEq] at hp
    all_goals subst hp
    all_goals fin_cases j <;>
      simp [CmdPortXip.setup_ip_transfer, FlexSpi.lutWrite,
        FlexSpi.flshcr2SetBit31, Function.update, cmdIndex,
        LUT_NUM_REG_PER_SEQ]
  · intro slot prog hp j
    cases cmd
    case ReadId => exact Option.noConfusion hp
    case PageProgram => exact Option.noConfusion hp
    all_goals simp only [ram_lut_program, Option.some.injEq,
      Prod.mk.injEq] at hp
    all_goals obtain ⟨hslot, hprog⟩ := hp
    all_goals subst hslot
    all_goals subst hprog
    all_goals fin_cases j <;>
      simp [CmdPortRam.setup_cmd_transfer, RamRegs.lutWrite, Function.update]
  · intro hcmd
    subst hcmd
    simp [CmdPortRam.setup_cmd_transfer]

/-- C3 witness: the amended theorem instantiated for EraseSector on the
execute-in-place engine at word 1 of slot 6. -/
theorem lut_slot_fully_programmed_witness :
    xip_lut_program FlexSpiCmd.EraseSector =
      some ![flexspi_lut_seq CMD_DDR Octal 0x21 CMD_DDR Octal 0xDE,
             flexspi_lut_seq RADDR_DDR Octal 0x20 STOP Single 0x0, 0, 0] ∧
    (CmdPortXip.setup_ip_transfer FlexSpiCmd.EraseSector none none none
      flexSpiZero).LUT 25 =
      flexspi_lut_seq RADDR_DDR Octal 0x20 STOP Single 0x0 := by
  refine ⟨rfl, ?_⟩
  have h := (lut_slot_fully_programmed FlexSpiCmd.EraseSector 8 8 none none
    none none ramRegsSentinel flexSpiZero).1 _ rfl 1
  simpa using h

/-- C4 counterexample: for EraseSector the RAM-resident engine selects
sequence id 5 while the fixed From mapping (and the execute-in-place
engine) uses 6, so the two engines do not program the same slot. -/
theorem erase_sector_slot_mismatch :
    (CmdPortRam.setup_cmd_transfer 8 8 FlexSpiCmd.EraseSector none
      ramRegsSentinel).ipcr1_iseqid = 5 ∧
    iseqid_field (CmdPortXip.setup_ip_transfer FlexSpiCmd.EraseSector none
      none none flexSpiZero).IPCR1 = 6 ∧
    (5 : Nat) ≠ cmdIndex FlexSpiCmd.EraseSector := by
  refine ⟨rfl, by decide, by decide⟩

/-- C4 (amended): the execute-in-place engine selects the sequence id given
by the fixed From mapping for every command it programs, while the
RAM-resident engine uses its own hard-coded ids (WriteEnable 3,
ReadStatusRegister 1, EraseSector 5, ReadId 12) and leaves the selection
unchanged for PageProgram; the two engines agree only on WriteEnable. -/
theorem engine_sequence_ids
    (sr : RamRegs) (sx : FlexSpi) (rxw txw : Nat) (addr a d z : Option Nat) :
    (∀ cmd, cmd ≠ FlexSpiCmd.PageProgram →
      iseqid_field (CmdPortXip.setup_ip_transfer cmd a d z sx).IPCR1 =
        cmdIndex cmd) ∧
    (CmdPortRam.setup_cmd_transfer rxw txw FlexSpiCmd.WriteEnable addr
      sr).ipcr1_iseqid = 3 ∧
    (CmdPortRam.setup_cmd_transfer rxw txw FlexSpiCmd.ReadStatusRegister addr
      sr).ipcr1_iseqid = 1 ∧
    (CmdPortRam.setup_cmd_transfer rxw txw FlexSpiCmd.EraseSector addr
      sr).ipcr1_iseqid = 5 ∧
    (CmdPortRam.setup_cmd_transfer rxw txw FlexSpiCmd.ReadId addr
      sr).ipcr1_iseqid = 12 ∧
    (CmdPortRam.setup_cmd_transfer rxw txw FlexSpiCmd.PageProgram addr
      sr).ipcr1_iseqid = sr.ipcr1_iseqid ∧
    3 = cmdIndex FlexSpiCmd.WriteEnable ∧
    1 ≠ cmdIndex FlexSpiCmd.ReadStatusRegister ∧
    5 ≠ cmdIndex FlexSpiCmd.EraseSector ∧
    12 ≠ cmdIndex FlexSpiCmd.ReadId := by
  refine ⟨?_, rfl, rfl, rfl, rfl, rfl, rfl, by decide, by decide, by decide⟩
  intro cmd hne
  cases cmd
  case PageProgram => exact absurd rfl hne
  all_goals
    simp only [CmdPortXip.setup_ip_transfer, FlexSpi.lutWrite,
      FlexSpi.flshcr2SetBit31]
  all_goals exact iseqid_field_set _ _ (by decide)

/-- C4 witness: the amended theorem instantiated for EraseSector on the
execute-in-place engine. -/
theorem engine_sequence_ids_witness :
    iseqid_field (CmdPortXip.setup_ip_transfer FlexSpiCmd.EraseSector none
      none none flexSpiZero).IPCR1 = cmdIndex FlexSpiCmd.EraseSector :=
  (engine_sequence_ids ramRegsSentinel flexSpiZero 8 8 none none none
    none).1 FlexSpiCmd.EraseSector (by decide)

/-- C5 counterexample: command-path erase on a controller tagged
execute-in-place is NOT rejected: impl FlexSpiCmdPort Blocking Xip
provides erase_sector, and invoking it at address 0x1000 from the all-zero
register state writes the IP-control address register, the EraseSector LUT
slot (word 24 becomes the nonzero erase sequence word) and the IP-command
trigger bit before any rejection could occur: command-path erase executes
with full register side effects on the execute-in-place tag. -/
theorem xip_command_path_erase_writes_registers :
    (CmdPortXip.erase_sector_regs 0x1000 flexSpiZero).IPCR0 = 0x1000 ∧
    (CmdPortXip.erase_sector_regs 0x1000 flexSpiZero).LUT 24 =
      flexspi_lut_seq CMD_DDR Octal 0x21 CMD_DDR Octal 0xDE ∧
    (CmdPortXip.erase_sector_regs 0x1000 flexSpiZero).IPCMD = 1 ∧
    flexSpiZero.IPCR0 = 0 ∧ flexSpiZero.LUT 24 = 0 ∧
    flexSpiZero.IPCMD = 0 ∧
    flexspi_lut_seq CMD_DDR Octal 0x21 CMD_DDR Octal 0xDE ≠ 0 := by
  refine ⟨by decide, by decide, by decide, rfl, rfl, rfl, by decide⟩

/-- C5 (amended): on the execute-in-place tag, only the trait-level
(memory-window data-port) erase is rejected, and that rejection happens
before any register write: the panic path carries the register state
unchanged, so no LUT, IP-control, IP-command or FIFO register is
modified.  The inherent command-port erase_sector, by contrast, is
provided for the execute-in-place tag and performs the erase without any
rejection, loading the sector address into IPCR0, programming the
EraseSector LUT slot and setting the IP-command trigger bit. -/
theorem xip_erase_mode_gating
    (s : FlexSpi) (addr_from addr_to addr : Nat) :
    (DataPortXip.erase addr_from addr_to s).isRejected = true ∧
    (DataPortXip.erase addr_from addr_to s).state.LUT = s.LUT ∧
    (DataPortXip.erase addr_from addr_to s).state.IPCR0 = s.IPCR0 ∧
    (DataPortXip.erase addr_from addr_to s).state.IPCR1 = s.IPCR1 ∧
    (DataPortXip.erase addr_from addr_to s).state.IPCMD = s.IPCMD ∧
    (DataPortXip.erase addr_from addr_to s).state.IPRXFCR = s.IPRXFCR ∧
    (DataPortXip.erase addr_from addr_to s).state.IPTXFCR = s.IPTXFCR ∧
    (DataPortXip.erase addr_from addr_to s).state = s ∧
    (CmdPortXip.erase_sector_regs addr s).IPCR0 = addr ∧
    (CmdPortXip.erase_sector_regs addr s).LUT
      (LUT_NUM_REG_PER_SEQ * cmdIndex FlexSpiCmd.EraseSector) =
      flexspi_lut_seq CMD_DDR Octal 0x21 CMD_DDR Octal 0xDE ∧
    (CmdPortXip.erase_sector_regs addr s).IPCMD = s.IPCMD ||| 0x1 := by
  refine ⟨rfl, rfl, rfl, rfl, rfl, rfl, rfl, rfl, ?_, ?_, ?_⟩ <;>
    simp [CmdPortXip.erase_sector_regs, CmdPortXip.execute_cmd,
      CmdPortXip.setup_ip_transfer, FlexSpi.lutWrite,
      FlexSpi.flshcr2SetBit31, Function.update, cmdIndex,
      LUT_NUM_REG_PER_SEQ]

/-- Helper for C6: a successful write-in-progress poll observes at least
one status value, its last observation has the WIP bit clear, and every
earlier observation has the WIP bit set (which is why the loop went on). -/
theorem wip_poll_spec (oracle : Nat → Nat) :
    ∀ fuel k obs, wip_poll oracle k fuel = some obs →
      (∃ v, obs.getLast? = some v ∧ v &&& 0x1 = 0) ∧
      (∀ v ∈ obs.dropLast, v &&& 0x1 ≠ 0) := by
  intro fuel
  induction fuel with
  | zero =>
    intro k obs h
    simp [wip_poll] at h
  | succ n ih =>
    intro k obs h
    simp only [wip_poll] at h
    by_cases hc : oracle k &&& 0x1 = 0
    · rw [if_pos hc] at h
      obtain rfl : [oracle k] = obs := by simpa using h
      exact ⟨⟨oracle k, rfl, hc⟩, by simp⟩
    · rw [if_neg hc] at h
      obtain ⟨tail, htail, rfl⟩ := Option.map_eq_some'.mp h
      obtain ⟨⟨w, hw, hwbit⟩, hdrop⟩ := ih _ _ htail
      cases tail with
      | nil => simp at hw
      | cons t ts =>
        refine ⟨⟨w, by rw [List.getLast?_cons_cons]; exact hw, hwbit⟩, ?_⟩
        intro v hv
        rw [List.dropLast_cons₂] at hv
        rcases List.mem_cons.mp hv with rfl | hv
        · exact hc
        · exact hdrop v hv

/-- C6 counterexample: the trait-level erase of the RAM-resident blocking
command port issues the erase command and waits only for command
completion; its event trace contains no flash-status read at all, so the
write-in-progress bit is never observed before erase returns. -/
theorem ram_erase_never_observes_wip :
    CmdPortRam.erase_events =
      [EngineEvent.setupTransfer FlexSpiCmd.EraseSector, EngineEvent.trigger,
       EngineEvent.pollCmdDone] ∧
    CmdPortRam.erase_events.countP EngineEvent.isStatusRead = 0 := by
  decide

/-- C6 (amended): the storage-driver erase and the execute-in-place
erase_sector do poll: whenever their write-in-progress wait terminates,
the emitted trace is the erase command followed by one status read per
observed value, the last observed value has WIP clear and all earlier ones
have it set; the RAM-resident command-port erase, by contrast, performs no
status read. -/
theorem erase_wip_observation
    (oracle : Nat → Nat) (fuel : Nat) (obs : List Nat)
    (h : wip_poll oracle 0 fuel = some obs) :
    FlexspiStorage.erase_events oracle fuel =
      some ([EngineEvent.setupTransfer FlexSpiCmd.EraseSector,
             EngineEvent.trigger, EngineEvent.pollCmdDone] ++
        obs.flatMap statusReadEvents) ∧
    CmdPortXip.erase_sector_events oracle fuel =
      some ([EngineEvent.setupTransfer FlexSpiCmd.EraseSector,
             EngineEvent.trigger, EngineEvent.pollCmdDone] ++
        obs.flatMap statusReadEvents) ∧
    (∃ v, obs.getLast? = some v ∧ v &&& 0x1 = 0) ∧
    (∀ v ∈ obs.dropLast, v &&& 0x1 ≠ 0) ∧
    CmdPortRam.erase_events.countP EngineEvent.isStatusRead = 0 := by
  obtain ⟨hlast, hdrop⟩ := wip_poll_spec oracle fuel 0 obs h
  refine ⟨?_, ?_, hlast, hdrop, by decide⟩
  · simp [FlexspiStorage.erase_events, h]
  · simp [CmdPortXip.erase_sector_events, h]

/-- C6 witness: the amended theorem at an oracle whose status shows WIP set
for two polls and clear on the third. -/
theorem erase_wip_observation_witness :
    wip_poll (fun k => if k < 2 then 1 else 0) 0 4 = some [1, 1, 0] ∧
    (∃ v, ([1, 1, 0] : List Nat).getLast? = some v ∧ v &&& 0x1 = 0) := by
  refine ⟨by decide, ?_⟩
  exact (erase_wip_observation (fun k => if k < 2 then 1 else 0) 4 [1, 1, 0]
    (by decide)).2.2.1

/-- Helper for C7: whenever the DLL-lock busy-wait exits, at least one of
the two observed lock bits is set (the loop condition conjoins the two
cleared-bit tests, so a single set bit already ends the loop). -/
theorem dll_lock_wait_exit (slv ref : Sts2 → Bool) (trace : Nat → Sts2) :
    ∀ fuel k p, dll_lock_wait slv ref trace k fuel = some p →
      p.1 = true ∨ p.2 = true := by
  intro fuel
  induction fuel with
  | zero =>
    intro k p h
    simp [dll_lock_wait] at h
  | succ n ih =>
    intro k p h
    simp only [dll_lock_wait] at h
    by_cases hc : slv (trace k) = false ∧ ref (trace (k + 1)) = false
    · rw [if_pos hc] at h
      exact ih _ _ h
    · rw [if_neg hc] at h
      obtain rfl : (slv (trace k), ref (trace (k + 1))) = p := by simpa using h
      cases ha : slv (trace k) <;> cases hb : ref (trace (k + 1)) <;>
        simp_all

/-- C7 counterexample: a status trace whose slave-delay lock is set but
whose reference lock stays clear makes the configure_flexspi_device wait
loop exit immediately: the wait can exit with the reference-lock bit still
0, so it does not guarantee both lock bits are 1. -/
theorem dll_wait_exits_with_reference_lock_clear :
    configure_flexspi_device_tail FlexSpiFlashPort.PortA
      (fun _ => { aslvlock := true, areflock := false, bslvlock := false,
                  breflock := false }) 1 = some ((true, false), 100) := by
  decide

/-- C7 (amended): whenever the configure_flexspi_device DLL wait loop
exits, at least one (not necessarily both) of the observed slave-delay-lock
and reference-lock bits is 1, and the fixed 100 no-op errata delay is
executed after the exit. -/
theorem configure_device_dll_wait
    (port : FlexSpiFlashPort) (trace : Nat → Sts2) (fuel : Nat)
    (p : Bool × Bool) (n : Nat)
    (h : configure_flexspi_device_tail port trace fuel = some (p, n)) :
    (p.1 = true ∨ p.2 = true) ∧ n = 100 := by
  cases port <;>
    simp only [configure_flexspi_device_tail, Option.map_eq_some'] at h <;>
    obtain ⟨q, hq, hpq⟩ := h <;>
    obtain ⟨rfl, rfl⟩ := Prod.mk.injEq .. |>.mp hpq <;>
    exact ⟨dll_lock_wait_exit _ _ trace fuel 0 q hq, rfl⟩

/-- C7 witness: the amended theorem at a trace that locks on the first
read. -/
theorem configure_device_dll_wait_witness :
    ((true, true).1 = true ∨ (true, true).2 = true) ∧ (100 : Nat) = 100 :=
  configure_device_dll_wait FlexSpiFlashPort.PortB
    (fun _ => { aslvlock := false, areflock := false, bslvlock := true,
                breflock := true }) 3 (true, true) 100 (by decide)

/-- C8 counterexample: the execute-in-place setup_ip_transfer does not
program the RX watermark field (the statements are commented out in the
source): a prior watermark field value 5 survives the call, instead of
becoming 8 / 8 - 1 = 0 as the claim requires for the default 8-byte
watermark. -/
theorem xip_setup_leaves_watermark :
    fifo_wmrk_field (CmdPortXip.setup_ip_transfer FlexSpiCmd.WriteEnable
      none none none { flexSpiZero with IPRXFCR := 5 <<< 2 }).IPRXFCR = 5 ∧
    (5 : Nat) ≠ 8 / 8 - 1 := by
  refine ⟨by decide, by decide⟩

/-- C8 (amended): the RAM-resident engine programs the RX and TX watermark
fields to byte-watermark / 8 - 1 during setup_cmd_transfer, but the
execute-in-place engine and the storage engine leave both watermark fields
of IPRXFCR and IPTXFCR unmodified (their watermark code is commented
out). -/
theorem fifo_watermark_programming
    (rxw txw : Nat) (cmd : FlexSpiCmd) (addr a d z : Option Nat)
    (sr : RamRegs) (sx st : FlexSpi) (hrx : 8 ≤ rxw) (htx : 8 ≤ txw) :
    ((CmdPortRam.setup_cmd_transfer rxw txw cmd addr sr).iprxfcr_rxwmrk =
        rxw / 8 - 1 ∧
      (CmdPortRam.setup_cmd_transfer rxw txw cmd addr sr).iptxfcr_txwmrk =
        txw / 8 - 1) ∧
    (fifo_wmrk_field (CmdPortXip.setup_ip_transfer cmd a d z sx).IPRXFCR =
        fifo_wmrk_field sx.IPRXFCR ∧
      fifo_wmrk_field (CmdPortXip.setup_ip_transfer cmd a d z sx).IPTXFCR =
        fifo_wmrk_field sx.IPTXFCR) ∧
    (fifo_wmrk_field (FlexspiStorage.setup_ip_transfer cmd a d z st).IPRXFCR =
        fifo_wmrk_field st.IPRXFCR ∧
      fifo_wmrk_field (FlexspiStorage.setup_ip_transfer cmd a d z st).IPTXFCR =
        fifo_wmrk_field st.IPTXFCR) := by
  refine ⟨⟨?_, ?_⟩, ⟨?_, ?_⟩, ⟨?_, ?_⟩⟩
  · cases cmd <;> rfl
  · cases cmd <;> rfl
  · cases cmd <;>
      simp [CmdPortXip.setup_ip_transfer, FlexSpi.lutWrite,
        FlexSpi.flshcr2SetBit31, fifo_wmrk_field_preserved]
  · cases cmd <;>
      simp [CmdPortXip.setup_ip_transfer, FlexSpi.lutWrite,
        FlexSpi.flshcr2SetBit31, fifo_wmrk_field_preserved]
  · cases cmd <;>
      simp [FlexspiStorage.setup_ip_transfer, FlexSpi.flshcr2SetBit31,
        fifo_wmrk_field_preserved]
  · cases cmd <;>
      simp [FlexspiStorage.setup_ip_transfer, FlexSpi.flshcr2SetBit31,
        fifo_wmrk_field_preserved]

/-- C8 witness: the amended theorem at the constructed ports' byte
watermark 8, where the programmed field value is 0. -/
theorem fifo_watermark_programming_witness :
    (8 : Nat) ≤ 8 ∧
    (CmdPortRam.setup_cmd_transfer 8 8 FlexSpiCmd.EraseSector none
      ramRegsSentinel).iprxfcr_rxwmrk = 8 / 8 - 1 :=
  ⟨by decide,
    (fifo_watermark_programming 8 8 FlexSpiCmd.EraseSector none none none
      none ramRegsSentinel flexSpiZero flexSpiZero (by decide)
      (by decide)).1.1⟩

/-- C9 counterexample: with a configuration whose buffer array carries a
buffer config differing from the hardcoded value in every field, the
programmed buffer-0 register still holds the hardcoded value: master id,
size, priority and prefetch do NOT come from the caller-supplied array. -/
theorem configure_flexspi_ignores_buffer_array :
    (configure_flexspi FlexSpiFlashPort.PortA
      FlexSpiFlashPortDeviceInstance.DeviceInstance0
      distinctBufferFlexspiConfig configRegsZero).ahbrxbuf 0 =
        hardcodedAhbBufReg ∧
    hardcodedAhbBufReg.mstrid ≠
      (distinctBufferFlexspiConfig.ahb_config.buffer 0).master_index ∧
    hardcodedAhbBufReg.bufsz ≠
      (distinctBufferFlexspiConfig.ahb_config.buffer 0).buffer_size ∧
    hardcodedAhbBufReg.priority ≠
      (distinctBufferFlexspiConfig.ahb_config.buffer 0).priority ∧
    hardcodedAhbBufReg.prefetchen ≠
      (distinctBufferFlexspiConfig.ahb_config.buffer 0).enable_prefetch := by
  refine ⟨rfl, by decide, by decide, by decide, by decide⟩

/-- C9 (amended): configure_flexspi programs every one of the 8 AHB read
buffers with the fixed values master id 0, prefetch enabled, size 256,
priority 0, for every caller-supplied configuration and prior state. -/
theorem configure_flexspi_buffers_hardcoded
    (port : FlexSpiFlashPort) (inst : FlexSpiFlashPortDeviceInstance)
    (config : FlexspiConfig) (s : ConfigRegs) (i : Fin 8) :
    (configure_flexspi port inst config s).ahbrxbuf i = hardcodedAhbBufReg := by
  fin_cases i <;>
    simp [configure_flexspi, ConfigRegs.wrAhbrxbuf, ConfigRegs.wrMdis,
      ConfigRegs.wrSwreset, ConfigRegs.wrRxclksrc, ConfigRegs.wrDozeen,
      ConfigRegs.wrSckfreerunen, ConfigRegs.wrHsen, ConfigRegs.wrAhbbuswait,
      ConfigRegs.wrSeqwait, ConfigRegs.wrSamedeviceen,
      ConfigRegs.wrResumewait, ConfigRegs.wrSckbdiffopt,
      ConfigRegs.wrClrahbbufopt, ConfigRegs.wrReadaddropt,
      ConfigRegs.wrPrefetchen, ConfigRegs.wrBufferableen,
      ConfigRegs.wrCachableen, ConfigRegs.wrFlshsz, ConfigRegs.wrRxwmrk,
      ConfigRegs.wrTxwmrk, Function.update]

/-- C10: the memory-window reads of the storage driver and of the
execute-in-place data port write exactly element 0 of the caller's buffer
(with the byte read from the window at 0x08000000 + offset), and the
byte-oriented read_cmd_data implementations, whenever their FIFO wait
terminates, write exactly element 0 (with the low byte of RX FIFO word 0);
List.set leaves every other element unchanged, as the final conjunct
records. -/
theorem read_writes_first_element_only
    (mem fillX fillS : Nat → Nat) (offset : Nat)
    (bytes dataX dataS : List Nat) (sx st : FlexSpi)
    (fuelX fuelS sizeX sizeS : Nat)
    (hb : bytes ≠ []) (hszX : sizeX ≤ 4) (hszS : sizeS ≤ 4) :
    FlexspiStorage.read mem offset bytes =
      some (bytes.set 0 (mem (0x08000000 + offset))) ∧
    DataPortXip.read mem offset bytes =
      some (bytes.set 0 (mem (0x08000000 + offset))) ∧
    (∀ out, CmdPortXip.read_cmd_data sx fillX fuelX sizeX dataX = some out →
      out = dataX.set 0 (sx.RFDR 0 % 256)) ∧
    (∀ out, FlexspiStorage.read_cmd_data st fillS fuelS sizeS dataS =
        some out → out = dataS.set 0 (st.RFDR 0 % 256)) ∧
    (∀ (l : List Nat) (v i : Nat), i ≠ 0 →
      (l.set 0 v).getD i 0 = l.getD i 0) := by
  refine ⟨?_, ?_, ?_, ?_, ?_⟩
  · cases bytes with
    | nil => exact absurd rfl hb
    | cons b l => rfl
  · cases bytes with
    | nil => exact absurd rfl hb
    | cons b l => rfl
  · intro out hout
    unfold CmdPortXip.read_cmd_data at hout
    cases hwait : fifo_fill_wait fillX sizeX 0 fuelX with
    | none => rw [hwait] at hout; exact absurd hout (by simp)
    | some u =>
      rw [hwait] at hout
      cases dataX with
      | nil => exact absurd hout (by simp)
      | cons b l => simpa using hout.symm
  · intro out hout
    unfold FlexspiStorage.read_cmd_data at hout
    cases hwait : fifo_fill_wait fillS sizeS 0 fuelS with
    | none => rw [hwait] at hout; exact absurd hout (by simp)
    | some u =>
      rw [hwait] at hout
      cases dataS with
      | nil => exact absurd hout (by simp)
      | cons b l => simpa using hout.symm
  · intro l v i hi
    cases l with
    | nil => simp
    | cons b t =>
      cases i with
      | zero => exact absurd rfl hi
      | succ j => simp

/-- C10 witness: the combined theorem at a 3-element buffer, size 1, an
RX FIFO whose word 0 is 0x1234 and a fill oracle that is immediately
sufficient. -/
theorem read_writes_first_element_only_witness :
    ([7, 8, 9] : List Nat) ≠ [] ∧ (1 : Nat) ≤ 4 ∧
    FlexspiStorage.read (fun _ => 0xAB) 4 [7, 8, 9] =
      some [0xAB, 8, 9] := by
  refine ⟨by decide, by decide, ?_⟩
  have h := (read_writes_first_element_only (fun _ => 0xAB)
    (fun _ => 31) (fun _ => 31) 4 [7, 8, 9] [5] [5]
    { flexSpiZero with RFDR := fun _ => 0x1234 }
    { flexSpiZero with RFDR := fun _ => 0x1234 } 1 1 1 1
    (by decide) (by decide) (by decide)).1
  simpa using h

end EmbassyImxrtFlexspi
